import Mathlib

/-!
Shallow embedding of `src/direct.c` from fuse-overlayfs: the direct layer
access data source.  Machine integers are modelled as `Nat` (errno values,
mode/uid/gid fields); fallible C calls returning `-1` with `errno` set are
modelled as `Except Nat α` carrying the errno.  The kernel-provided calls
(`statx`, `fstat`, `fstatat`, `open_fd_or_get_path`) are modelled as
environment records holding their outcomes; the extended-attribute store of
the target entry is modelled explicitly, with `fgetxattr`/`lgetxattr`
buffer-capacity semantics (ERANGE when the value does not fit).
-/

/-- errno value for "function not implemented". -/
def ENOSYS : Nat := 38

/-- errno value for "no data available" (attribute absent). -/
def ENODATA : Nat := 61

/-- errno value for "invalid argument". -/
def EINVAL : Nat := 22

/-- errno value for "result too large" (xattr value exceeds buffer). -/
def ERANGE : Nat := 34

/-- File-type bit mask of `st_mode`. -/
def S_IFMT : Nat := 0o170000

/-- Regular-file type bits. -/
def S_IFREG : Nat := 0o100000

/-- The two well-known extended-attribute names used by `direct.c`:
`security.fuseoverlayfs.override_stat` and `user.fuseoverlayfs.override_stat`. -/
inductive XattrName where
  | privileged_override_stat
  | user_override_stat

/-- The extended attributes of one filesystem entry that are relevant here:
the value (if present) stored under each of the two override names. -/
structure XattrEntry where
  privileged_value : Option String
  user_value : Option String

/-- Look up the value stored under one of the two names. -/
def XattrEntry.get : XattrEntry → XattrName → Option String
  | e, .privileged_override_stat => e.privileged_value
  | e, .user_override_stat => e.user_value

/-- Model of `fgetxattr`/`lgetxattr` on an entry with a buffer of capacity
`size` bytes: absent attribute fails with ENODATA, a value longer than the
buffer fails with ERANGE, otherwise the value is returned. -/
def fgetxattr (e : XattrEntry) (name : XattrName) (size : Nat) : Except Nat String :=
  match e.get name with
  | none => .error ENODATA
  | some v => if size < v.length then .error ERANGE else .ok v

/-- The conventional `struct stat` fields this core reads or writes. -/
structure StatRecord where
  st_mode : Nat
  st_uid : Nat
  st_gid : Nat
  st_nlink : Nat
  st_size : Nat
  st_ino : Nat

/-- The parsed override record `uid:gid:mode` (values as stored into the
32-bit `uid_t`/`gid_t`/`mode_t` fields). -/
structure override_record where
  uid : Nat
  gid : Nat
  mode : Nat

/-- The per-layer state of `struct ovl_layer` used by `direct.c`:
the two override-presence flags (C ints, nonzero meaning set). -/
structure ovl_layer where
  has_stat_override : Nat
  has_privileged_stat_override : Nat

/-- Numeric value of a decimal/octal digit character. -/
def digitVal (c : Char) : Nat := c.toNat - 48

/-- Decimal digit test. -/
def isDecDigit (c : Char) : Bool := 48 ≤ c.toNat && c.toNat ≤ 57

/-- Octal digit test. -/
def isOctDigit (c : Char) : Bool := 48 ≤ c.toNat && c.toNat ≤ 55

/-- C `isspace` set, skipped by `scanf` numeric conversions. -/
def isSpaceChar (c : Char) : Bool := c.toNat = 32 || (9 ≤ c.toNat && c.toNat ≤ 13)

/-- Skip leading whitespace, as a `scanf` numeric conversion does. -/
def skipSpaces : List Char → List Char
  | [] => []
  | c :: cs => if isSpaceChar c then skipSpaces cs else c :: cs

/-- Consume a maximal run of digits, accumulating their value. -/
def scanDigits (isD : Char → Bool) (base : Nat) : List Char → Nat → Nat × List Char
  | [], acc => (acc, [])
  | c :: cs, acc =>
      if isD c then scanDigits isD base cs (acc * base + digitVal c)
      else (acc, c :: cs)

/-- One `scanf` numeric conversion: skip whitespace, optional sign, then at
least one digit; `none` when no digit follows (conversion failure). -/
def scanNum (isD : Char → Bool) (base : Nat) (s : List Char) : Option (Int × List Char) :=
  let s1 := skipSpaces s
  let signed : Int × List Char :=
    match s1 with
    | '-' :: rest => (-1, rest)
    | '+' :: rest => (1, rest)
    | _ => (1, s1)
  match signed.2 with
  | [] => none
  | c :: cs =>
      if isD c then
        let r := scanDigits isD base cs (digitVal c)
        some (signed.1 * (r.1 : Int), r.2)
      else none

/-- Model of `sscanf (buf, "%d:%d:%o", &uid, &gid, &mode)`: `some` exactly
when all three conversions succeed (return value 3), the literal `:`
separators matching exactly; trailing input is ignored. -/
def sscanf_uid_gid_mode (s : String) : Option (Int × Int × Int) :=
  match scanNum isDecDigit 10 s.data with
  | none => none
  | some (uid, r1) =>
    match r1 with
    | ':' :: r2 =>
      match scanNum isDecDigit 10 r2 with
      | none => none
      | some (gid, r3) =>
        match r3 with
        | ':' :: r4 =>
          match scanNum isOctDigit 8 r4 with
          | none => none
          | some (mode, _) => some (uid, gid, mode)
        | _ => none
    | _ => none

/-- Reduce a parsed signed value to the 32-bit unsigned field it is stored
into (`uid_t`, `gid_t`, `mode_t`). -/
def toUInt32Nat (i : Int) : Nat := (i % (2 ^ 32 : Int)).toNat

/-- The decode step of `override_mode` (direct.c lines 125-130): parse the
attribute text; a parse that does not yield exactly three fields fails with
EINVAL (the `MalformedOverride` condition). -/
def decode_override (s : String) : Except Nat override_record :=
  match sscanf_uid_gid_mode s with
  | none => .error EINVAL
  | some (u, g, m) => .ok ⟨toUInt32Nat u, toUInt32Nat g, toUInt32Nat m⟩

/-- The apply step of `override_mode` (direct.c lines 132-134): replace
owner and group, and replace `st_mode` by its file-type bits joined with the
record's mode value. -/
def apply_override (r : override_record) (st : StatRecord) : StatRecord :=
  { st with
      st_uid := r.uid
      st_gid := r.gid
      st_mode := (st.st_mode &&& S_IFMT) ||| r.mode }

/-- Attribute-name selection (direct.c line 96): the privileged name is used
exactly when the privileged flag is nonzero, else the unprivileged name. -/
def select_xattr_name (l : ovl_layer) : XattrName :=
  if l.has_privileged_stat_override ≠ 0 then .privileged_override_stat
  else .user_override_stat

/-- Outcome of `open_fd_or_get_path`: either an open descriptor or a full
path string was produced. -/
inductive AccessTarget where
  | descriptor
  | path

/-- Model of `override_mode` (direct.c lines 82-137).  `fd_valid` tells
whether the caller passed an open descriptor (`fd >= 0`); otherwise the
dual-access resolver outcome `resolve` is consulted first and its error is
propagated.  Either way the override attribute of the target `entry` is
fetched with a 63-byte capacity (`sizeof (buf) - 1`); fetch errors
propagate, a malformed value fails with EINVAL, and a parsed record is
applied to the stat result. -/
def override_mode (l : ovl_layer) (fd_valid : Bool) (resolve : Except Nat AccessTarget)
    (entry : XattrEntry) (st : StatRecord) : Except Nat StatRecord :=
  if l.has_stat_override = 0 ∧ l.has_privileged_stat_override = 0 then .ok st
  else
    let fetch : Except Nat String :=
      if fd_valid then fgetxattr entry (select_xattr_name l) 63
      else
        match resolve with
        | .error e => .error e
        | .ok _ => fgetxattr entry (select_xattr_name l) 63
    match fetch with
    | .error e => .error e
    | .ok buf =>
      match decode_override buf with
      | .error e => .error e
      | .ok r => .ok (apply_override r st)

/-- Environment of one `direct_fstat` call: the outcome of the rich
field-selective query (`statx` followed by `statx_to_stat`) and of the
conventional query (`fstat`) on the same open descriptor. -/
structure StatxEnv where
  statx_result : Except Nat StatRecord
  fstat_result : Except Nat StatRecord

/-- The fallback branch of `direct_fstat` (direct.c lines 160-165):
conventional `fstat`, then override application through the descriptor. -/
def fstat_fallback (l : ovl_layer) (env : StatxEnv) (entry : XattrEntry) :
    Except Nat StatRecord :=
  match env.fstat_result with
  | .error e => .error e
  | .ok st => override_mode l true (.ok .descriptor) entry st

/-- Model of `direct_fstat` (direct.c lines 140-166): try the rich query;
on ENOSYS go to the fallback; on success convert and apply the override;
any other rich-query error is returned unchanged. -/
def direct_fstat (l : ovl_layer) (env : StatxEnv) (entry : XattrEntry) :
    Except Nat StatRecord :=
  match env.statx_result with
  | .ok st => override_mode l true (.ok .descriptor) entry st
  | .error e => if e = ENOSYS then fstat_fallback l env entry else .error e

/-- Environment of one `direct_statat` call: rich query outcome,
conventional `fstatat` outcome, and the dual-access resolver outcome used
by the override step (no descriptor is in hand, `fd = -1`). -/
structure StatatEnv where
  statx_result : Except Nat StatRecord
  fstatat_result : Except Nat StatRecord
  resolve : Except Nat AccessTarget

/-- The fallback branch of `direct_statat` (direct.c lines 187-192). -/
def statat_fallback (l : ovl_layer) (env : StatatEnv) (entry : XattrEntry) :
    Except Nat StatRecord :=
  match env.fstatat_result with
  | .error e => .error e
  | .ok st => override_mode l false env.resolve entry st

/-- Model of `direct_statat` (direct.c lines 168-193). -/
def direct_statat (l : ovl_layer) (env : StatatEnv) (entry : XattrEntry) :
    Except Nat StatRecord :=
  match env.statx_result with
  | .ok st => override_mode l false env.resolve entry st
  | .error e => if e = ENOSYS then statat_fallback l env entry else .error e

/-- Environment of `direct_load_data_source`: whether `realpath` and the
root `open` succeed, and the extended attributes of the layer root. -/
structure LoadEnv where
  realpath_ok : Bool
  open_ok : Bool
  root : XattrEntry

/-- The load-time probe (direct.c lines 257-259): `fgetxattr` on the root
descriptor with the full 64-byte `tmp` buffer, success meaning present. -/
def xattr_probe (root : XattrEntry) (name : XattrName) : Bool :=
  match fgetxattr root name 64 with
  | .ok _ => true
  | .error _ => false

/-- Model of `direct_load_data_source` (direct.c lines 238-263): resolve
the canonical path, open the root directory, then probe for the privileged
override record and — only if that probe failed — the unprivileged one. -/
def direct_load_data_source (l : ovl_layer) (env : LoadEnv) : Except Int ovl_layer :=
  if env.realpath_ok = false then .error (-1)
  else if env.open_ok = false then .error (-1)
  else if xattr_probe env.root .privileged_override_stat then
    .ok { l with has_privileged_stat_override := 1 }
  else if xattr_probe env.root .user_override_stat then
    .ok { l with has_stat_override := 1 }
  else .ok l

/-- Model of `direct_must_be_remapped` (direct.c lines 277-281). -/
def direct_must_be_remapped (l : ovl_layer) : Bool :=
  decide (l.has_privileged_stat_override = 0) && decide (l.has_stat_override = 0)

/-- The owned resources of a successfully loaded layer: whether the root
descriptor is still open and the canonical path string still allocated. -/
structure LayerResources where
  fd_open : Bool
  path_allocated : Bool

/-- Model of `direct_cleanup` (direct.c lines 265-269): the body is
`return 0;` — it returns success and touches no resource. -/
def direct_cleanup (res : LayerResources) : Int × LayerResources := (0, res)

/-! ## Bitwise helper lemmas -/

/-- Per-bit consequence of a zero bitwise-and. -/
theorem testBit_and_false {b c : Nat} (h : b &&& c = 0) (i : Nat) :
    (b.testBit i && c.testBit i) = false := by
  have h2 := congrArg (fun n => Nat.testBit n i) h
  simp only [Nat.testBit_land, Nat.zero_testBit] at h2
  exact h2

/-- Re-masking after a disjoint join recovers the original masked bits. -/
theorem land_absorb_of_disjoint {a b c : Nat} (h : b &&& c = 0) :
    ((a &&& c) ||| b) &&& c = a &&& c := by
  apply Nat.eq_of_testBit_eq
  intro i
  have h1 := testBit_and_false h i
  simp only [Nat.testBit_land, Nat.testBit_lor]
  cases hb : b.testBit i <;> cases hc : c.testBit i <;> simp_all

/-- Removing the masked bits of a disjoint join recovers the joined value. -/
theorem xor_cancel_of_disjoint {a b c : Nat} (h : b &&& c = 0) :
    ((a &&& c) ||| b) ^^^ (a &&& c) = b := by
  apply Nat.eq_of_testBit_eq
  intro i
  have h1 := testBit_and_false h i
  simp only [Nat.testBit_xor, Nat.testBit_lor, Nat.testBit_land]
  cases ha : a.testBit i <;> cases hb : b.testBit i <;> cases hc : c.testBit i <;> simp_all

/-- Masking then joining is stable under one more round of the same. -/
theorem land_lor_absorb (a b c : Nat) :
    (((a &&& c) ||| b) &&& c) ||| b = (a &&& c) ||| b := by
  apply Nat.eq_of_testBit_eq
  intro i
  simp only [Nat.testBit_land, Nat.testBit_lor]
  cases ha : a.testBit i <;> cases hb : b.testBit i <;> cases hc : c.testBit i <;> rfl

/-! ## Claim theorems -/

/-- Claim C6: applying an override record twice to the same stat result is
the same as applying it once: the owner and group writes are overwrites, and
re-masking the already-joined mode with `S_IFMT` and re-joining the record's
mode reproduces the same mode. -/
theorem apply_override_idempotent (r : override_record) (s : StatRecord) :
    apply_override r (apply_override r s) = apply_override r s := by
  simp [apply_override, land_lor_absorb]

/-- Claim C5: the override-record decoder yields `{uid 1000, gid 1000,
mode 0o755}` on the text `"1000:1000:755"`, and fails with the
`MalformedOverride` condition (EINVAL) on `"bad"`. -/
theorem decode_override_examples :
    decode_override "1000:1000:755" = .ok ⟨1000, 1000, 0o755⟩ ∧
    decode_override "bad" = .error EINVAL :=
  ⟨rfl, rfl⟩

/-- Claim C8, counterexample: on a loaded layer whose root descriptor is
open and whose canonical path is allocated, `direct_cleanup` returns 0 but
releases neither resource — the claim that it releases the descriptor and
frees the path is false. -/
theorem direct_cleanup_releases_nothing :
    (direct_cleanup ⟨true, true⟩).1 = 0 ∧
    ¬ ((direct_cleanup ⟨true, true⟩).2.fd_open = false ∧
       (direct_cleanup ⟨true, true⟩).2.path_allocated = false) := by
  exact ⟨rfl, by decide⟩

/-- Claim C8, amended: the cleanup operation is a successful no-op — it
returns 0 and leaves the root descriptor and the path string untouched
(their release is performed elsewhere, outside this data source). -/
theorem direct_cleanup_noop (res : LayerResources) :
    direct_cleanup res = (0, res) :=
  rfl

/-- Claim C1 (amended): when a stat call succeeds, the layer carries an
override record, and the fetched record decodes to `r` whose mode value has
no file-type bits, the returned stat keeps the physical file-type bits while
its remaining mode bits, owner, and group are exactly the record's values
(all other stat fields untouched). -/
theorem override_apply_mode_invariant (l : ovl_layer) (env : StatxEnv) (entry : XattrEntry)
    (st : StatRecord) (v : String) (r : override_record)
    (hflag : ¬(l.has_stat_override = 0 ∧ l.has_privileged_stat_override = 0))
    (hstatx : env.statx_result = .ok st)
    (hval : entry.get (select_xattr_name l) = some v)
    (hlen : v.length ≤ 63)
    (hdec : decode_override v = .ok r)
    (hmode : r.mode &&& S_IFMT = 0) :
    direct_fstat l env entry = .ok (apply_override r st) ∧
    (apply_override r st).st_mode &&& S_IFMT = st.st_mode &&& S_IFMT ∧
    (apply_override r st).st_mode ^^^ ((apply_override r st).st_mode &&& S_IFMT) = r.mode ∧
    (apply_override r st).st_uid = r.uid ∧
    (apply_override r st).st_gid = r.gid ∧
    (apply_override r st).st_nlink = st.st_nlink ∧
    (apply_override r st).st_size = st.st_size ∧
    (apply_override r st).st_ino = st.st_ino := by
  have hnot : ¬ 63 < v.length := by omega
  refine ⟨?_, ?_, ?_, rfl, rfl, rfl, rfl, rfl⟩
  · simp only [direct_fstat, hstatx, override_mode, if_neg hflag, if_true, fgetxattr, hval,
      if_neg hnot, hdec]
  · show ((st.st_mode &&& S_IFMT) ||| r.mode) &&& S_IFMT = st.st_mode &&& S_IFMT
    exact land_absorb_of_disjoint hmode
  · show ((st.st_mode &&& S_IFMT) ||| r.mode) ^^^
        (((st.st_mode &&& S_IFMT) ||| r.mode) &&& S_IFMT) = r.mode
    rw [land_absorb_of_disjoint hmode]
    exact xor_cancel_of_disjoint hmode

/-- Concrete instance used by the C1 counterexample. -/
def c1_stat : StatRecord := ⟨0o100644, 5, 6, 1, 100, 42⟩

/-- Claim C1, counterexample: on a layer with an unprivileged override
record whose attribute text is `"0:0:170000"` (a successfully decoded
record whose mode value is exactly the `S_IFMT` mask), the override is
applied successfully but the resulting mode's file-type bits are `0o170000`,
not the physical regular-file bits `0o100000` — the stated invariant fails. -/
theorem override_type_bits_counterexample :
    direct_fstat ⟨1, 0⟩ ⟨.ok c1_stat, .error 0⟩ ⟨none, some "0:0:170000"⟩ =
      .ok ⟨0o170000, 0, 0, 1, 100, 42⟩ ∧
    ¬ ((0o170000 : Nat) &&& S_IFMT = c1_stat.st_mode &&& S_IFMT) :=
  ⟨rfl, by decide⟩

/-- Witness for C1: the amended theorem applied to a layer whose entry
holds `"1000:1000:755"`, a well-formed record with mode `0o755`. -/
theorem override_apply_mode_invariant_witness :
    direct_fstat ⟨1, 0⟩ ⟨.ok c1_stat, .error 0⟩ ⟨none, some "1000:1000:755"⟩ =
      .ok (apply_override ⟨1000, 1000, 0o755⟩ c1_stat) ∧
    (apply_override ⟨1000, 1000, 0o755⟩ c1_stat).st_mode &&& S_IFMT =
      c1_stat.st_mode &&& S_IFMT ∧
    (apply_override ⟨1000, 1000, 0o755⟩ c1_stat).st_mode ^^^
      ((apply_override ⟨1000, 1000, 0o755⟩ c1_stat).st_mode &&& S_IFMT) = 0o755 ∧
    (apply_override ⟨1000, 1000, 0o755⟩ c1_stat).st_uid = 1000 ∧
    (apply_override ⟨1000, 1000, 0o755⟩ c1_stat).st_gid = 1000 ∧
    (apply_override ⟨1000, 1000, 0o755⟩ c1_stat).st_nlink = c1_stat.st_nlink ∧
    (apply_override ⟨1000, 1000, 0o755⟩ c1_stat).st_size = c1_stat.st_size ∧
    (apply_override ⟨1000, 1000, 0o755⟩ c1_stat).st_ino = c1_stat.st_ino :=
  override_apply_mode_invariant ⟨1, 0⟩ ⟨.ok c1_stat, .error 0⟩ ⟨none, some "1000:1000:755"⟩
    c1_stat "1000:1000:755" ⟨1000, 1000, 0o755⟩
    (by decide) rfl rfl (by decide) rfl (by decide)

/-- Concrete stat used by the C2 counterexample. -/
def c2_stat : StatRecord := ⟨0o100644, 1, 2, 1, 10, 7⟩

/-- Claim C2, counterexample: on a layer that has an (unprivileged) override
record, a target entry without the override attribute makes the whole stat
call fail with ENODATA — the raw stat result does not stand, contrary to the
claim that absence of the attribute on the entry is never an error. -/
theorem missing_attr_not_tolerated :
    direct_fstat ⟨1, 0⟩ ⟨.ok c2_stat, .error 0⟩ ⟨none, none⟩ = .error ENODATA ∧
    direct_fstat ⟨1, 0⟩ ⟨.ok c2_stat, .error 0⟩ ⟨none, none⟩ ≠ .ok c2_stat := by
  have he : direct_fstat ⟨1, 0⟩ ⟨.ok c2_stat, .error 0⟩ ⟨none, none⟩ = .error ENODATA := rfl
  exact ⟨he, fun h => Except.noConfusion (he.symm.trans h)⟩

/-- Claim C2 (amended): when the layer itself has no override record
(neither flag set at load), every successful metadata query — rich or
fallback, by descriptor or by path — returns the raw stat result unchanged;
the override step is skipped entirely. -/
theorem no_override_record_raw_stat (l : ovl_layer) (entry : XattrEntry)
    (st1 st2 st3 : StatRecord) (envF1 envF2 : StatxEnv) (envA : StatatEnv)
    (hflags : l.has_stat_override = 0 ∧ l.has_privileged_stat_override = 0)
    (h1 : envF1.statx_result = .ok st1)
    (h2 : envF2.statx_result = .error ENOSYS)
    (h2f : envF2.fstat_result = .ok st2)
    (h3 : envA.statx_result = .ok st3) :
    direct_fstat l envF1 entry = .ok st1 ∧
    direct_fstat l envF2 entry = .ok st2 ∧
    direct_statat l envA entry = .ok st3 := by
  refine ⟨?_, ?_, ?_⟩
  · simp [direct_fstat, h1, override_mode, hflags]
  · simp [direct_fstat, h2, fstat_fallback, h2f, override_mode, hflags]
  · simp [direct_statat, h3, override_mode, hflags]

/-- Witness for C2 (amended): a layer with both flags clear returns the raw
stat through the rich path, the fallback path, and the by-path entry point. -/
theorem no_override_record_raw_stat_witness :
    direct_fstat ⟨0, 0⟩ ⟨.ok c2_stat, .error 0⟩ ⟨none, none⟩ = .ok c2_stat ∧
    direct_fstat ⟨0, 0⟩ ⟨.error ENOSYS, .ok c2_stat⟩ ⟨none, none⟩ = .ok c2_stat ∧
    direct_statat ⟨0, 0⟩ ⟨.ok c2_stat, .error 0, .error 1⟩ ⟨none, none⟩ = .ok c2_stat :=
  no_override_record_raw_stat ⟨0, 0⟩ ⟨none, none⟩ c2_stat c2_stat c2_stat
    ⟨.ok c2_stat, .error 0⟩ ⟨.error ENOSYS, .ok c2_stat⟩ ⟨.ok c2_stat, .error 0, .error 1⟩
    (by decide) rfl rfl rfl rfl

/-- Claim C3: in both entry points, a rich-query failure with ENOSYS makes
the call take exactly the conventional fallback path (so the ENOSYS from the
rich query itself never reaches the caller), while any other rich-query
error is returned to the caller unchanged. -/
theorem statx_enosys_fallback (l : ovl_layer) (entry : XattrEntry)
    (envF1 envF2 : StatxEnv) (envA1 envA2 : StatatEnv) (e1 e2 : Nat)
    (h1 : envF1.statx_result = .error ENOSYS)
    (h2 : envF2.statx_result = .error e1) (h2n : e1 ≠ ENOSYS)
    (h3 : envA1.statx_result = .error ENOSYS)
    (h4 : envA2.statx_result = .error e2) (h4n : e2 ≠ ENOSYS) :
    direct_fstat l envF1 entry = fstat_fallback l envF1 entry ∧
    direct_fstat l envF2 entry = .error e1 ∧
    direct_statat l envA1 entry = statat_fallback l envA1 entry ∧
    direct_statat l envA2 entry = .error e2 := by
  refine ⟨?_, ?_, ?_, ?_⟩
  · simp [direct_fstat, h1]
  · simp [direct_fstat, h2, h2n]
  · simp [direct_statat, h3]
  · simp [direct_statat, h4, h4n]

/-- Witness for C3, with EACCES (13) as the non-ENOSYS error. -/
theorem statx_enosys_fallback_witness :
    direct_fstat ⟨0, 0⟩ ⟨.error ENOSYS, .ok c2_stat⟩ ⟨none, none⟩ =
      fstat_fallback ⟨0, 0⟩ ⟨.error ENOSYS, .ok c2_stat⟩ ⟨none, none⟩ ∧
    direct_fstat ⟨0, 0⟩ ⟨.error 13, .ok c2_stat⟩ ⟨none, none⟩ = .error 13 ∧
    direct_statat ⟨0, 0⟩ ⟨.error ENOSYS, .ok c2_stat, .error 1⟩ ⟨none, none⟩ =
      statat_fallback ⟨0, 0⟩ ⟨.error ENOSYS, .ok c2_stat, .error 1⟩ ⟨none, none⟩ ∧
    direct_statat ⟨0, 0⟩ ⟨.error 13, .ok c2_stat, .error 1⟩ ⟨none, none⟩ = .error 13 :=
  statx_enosys_fallback ⟨0, 0⟩ ⟨none, none⟩
    ⟨.error ENOSYS, .ok c2_stat⟩ ⟨.error 13, .ok c2_stat⟩
    ⟨.error ENOSYS, .ok c2_stat, .error 1⟩ ⟨.error 13, .ok c2_stat, .error 1⟩ 13 13
    rfl rfl (by decide) rfl rfl (by decide)

/-- Claim C4: on a layer with an override record, an attribute value that is
present (and fits the buffer) but does not parse as `uid:gid:octal-mode`
makes the whole stat call fail with EINVAL (the `MalformedOverride`
condition) in both entry points, instead of returning the raw stat. -/
theorem malformed_override_fails_stat (l : ovl_layer) (entry : XattrEntry)
    (st1 st2 : StatRecord) (v : String) (envF : StatxEnv) (envA : StatatEnv) (t : AccessTarget)
    (hflag : ¬(l.has_stat_override = 0 ∧ l.has_privileged_stat_override = 0))
    (hval : entry.get (select_xattr_name l) = some v)
    (hlen : v.length ≤ 63)
    (hbad : sscanf_uid_gid_mode v = none)
    (h1 : envF.statx_result = .ok st1)
    (h2 : envA.statx_result = .ok st2)
    (hres : envA.resolve = .ok t) :
    direct_fstat l envF entry = .error EINVAL ∧
    direct_statat l envA entry = .error EINVAL := by
  have hnot : ¬ 63 < v.length := by omega
  refine ⟨?_, ?_⟩
  · simp only [direct_fstat, h1, override_mode, if_neg hflag, if_true, fgetxattr, hval,
      if_neg hnot, decode_override, hbad]
  · simp only [direct_statat, h2, override_mode, if_neg hflag, Bool.false_eq_true, if_false,
      hres, fgetxattr, hval, if_neg hnot, decode_override, hbad]

/-- Witness for C4: attribute text `"bad"` fails both stat entry points
with EINVAL. -/
theorem malformed_override_fails_stat_witness :
    direct_fstat ⟨1, 0⟩ ⟨.ok c1_stat, .error 0⟩ ⟨none, some "bad"⟩ = .error EINVAL ∧
    direct_statat ⟨1, 0⟩ ⟨.ok c2_stat, .error 0, .ok .path⟩ ⟨none, some "bad"⟩ =
      .error EINVAL :=
  malformed_override_fails_stat ⟨1, 0⟩ ⟨none, some "bad"⟩ c1_stat c2_stat "bad"
    ⟨.ok c1_stat, .error 0⟩ ⟨.ok c2_stat, .error 0, .ok .path⟩ .path
    (by decide) rfl (by decide) rfl rfl rfl rfl

/-- Characterization of a successful layer load: the resulting layer is the
input with the privileged flag set when the privileged probe succeeds, else
the unprivileged flag set when that probe succeeds, else unchanged. -/
theorem direct_load_flags (l0 l1 : ovl_layer) (env : LoadEnv)
    (hload : direct_load_data_source l0 env = .ok l1) :
    l1 = if xattr_probe env.root .privileged_override_stat then
           { l0 with has_privileged_stat_override := 1 }
         else if xattr_probe env.root .user_override_stat then
           { l0 with has_stat_override := 1 }
         else l0 := by
  unfold direct_load_data_source at hload
  split at hload
  next hr => exact Except.noConfusion hload
  next hr =>
    split at hload
    next ho => exact Except.noConfusion hload
    next ho =>
      split at hload
      next hp =>
        simp only [Except.ok.injEq] at hload
        rw [if_pos hp]
        exact hload.symm
      next hp =>
        split at hload
        next hu =>
          simp only [Except.ok.injEq] at hload
          rw [if_neg hp, if_pos hu]
          exact hload.symm
        next hu =>
          simp only [Except.ok.injEq] at hload
          rw [if_neg hp, if_neg hu]
          exact hload.symm

/-- Claim C7: on a layer loaded from a zero-initialized record, the
remap-necessity query is true exactly when neither override-record probe
succeeded on the layer root; in particular a successful privileged probe
makes it false regardless of the unprivileged record. -/
theorem must_be_remapped_iff_no_override (l0 l1 : ovl_layer) (env : LoadEnv)
    (hinit : l0.has_stat_override = 0 ∧ l0.has_privileged_stat_override = 0)
    (hload : direct_load_data_source l0 env = .ok l1) :
    (direct_must_be_remapped l1 = true ↔
      (xattr_probe env.root .privileged_override_stat = false ∧
       xattr_probe env.root .user_override_stat = false)) ∧
    (xattr_probe env.root .privileged_override_stat = true →
      direct_must_be_remapped l1 = false) := by
  obtain ⟨hi1, hi2⟩ := hinit
  have hl := direct_load_flags l0 l1 env hload
  subst hl
  cases hp : xattr_probe env.root .privileged_override_stat <;>
    cases hu : xattr_probe env.root .user_override_stat <;>
      simp [direct_must_be_remapped, hp, hu, hi1, hi2]

/-- Witness for C7: a root carrying both the privileged and the
unprivileged record loads with only the privileged flag set, and the
remap-necessity query returns false. -/
theorem must_be_remapped_iff_no_override_witness :
    (direct_must_be_remapped ⟨0, 1⟩ = true ↔
      (xattr_probe ⟨some "0:0:755", some "1:1:7"⟩ .privileged_override_stat = false ∧
       xattr_probe ⟨some "0:0:755", some "1:1:7"⟩ .user_override_stat = false)) ∧
    (xattr_probe ⟨some "0:0:755", some "1:1:7"⟩ .privileged_override_stat = true →
      direct_must_be_remapped ⟨0, 1⟩ = false) :=
  must_be_remapped_iff_no_override ⟨0, 0⟩ ⟨0, 1⟩
    ⟨true, true, ⟨some "0:0:755", some "1:1:7"⟩⟩ (by decide) rfl

/-- Claim C9: a successful load of a zero-initialized layer never sets both
flags: the unprivileged flag is only set when the privileged probe failed. -/
theorem load_at_most_one_override_flag (l0 l1 : ovl_layer) (env : LoadEnv)
    (hinit : l0.has_stat_override = 0 ∧ l0.has_privileged_stat_override = 0)
    (hload : direct_load_data_source l0 env = .ok l1) :
    ¬ (l1.has_stat_override ≠ 0 ∧ l1.has_privileged_stat_override ≠ 0) ∧
    (l1.has_stat_override ≠ 0 →
      xattr_probe env.root .privileged_override_stat = false) := by
  obtain ⟨hi1, hi2⟩ := hinit
  have hl := direct_load_flags l0 l1 env hload
  subst hl
  cases hp : xattr_probe env.root .privileged_override_stat <;>
    cases hu : xattr_probe env.root .user_override_stat <;>
      simp [hp, hu, hi1, hi2]

/-- Witness for C9: a root with only the unprivileged record loads to a
layer with exactly the unprivileged flag set. -/
theorem load_at_most_one_override_flag_witness :
    ¬ ((⟨1, 0⟩ : ovl_layer).has_stat_override ≠ 0 ∧
       (⟨1, 0⟩ : ovl_layer).has_privileged_stat_override ≠ 0) ∧
    ((⟨1, 0⟩ : ovl_layer).has_stat_override ≠ 0 →
      xattr_probe ⟨none, some "1:1:7"⟩ .privileged_override_stat = false) :=
  load_at_most_one_override_flag ⟨0, 0⟩ ⟨1, 0⟩ ⟨true, true, ⟨none, some "1:1:7"⟩⟩
    (by decide) rfl

/-- Claim C10: on a layer with an override record, a target entry whose
override attribute value is longer than 63 bytes (the `sizeof (buf) - 1`
capacity passed to the attribute fetch) makes the stat call fail with
ERANGE; no truncated record is ever applied. -/
theorem oversized_override_value_fails (l : ovl_layer) (entry : XattrEntry)
    (st : StatRecord) (v : String) (env : StatxEnv)
    (hflag : ¬(l.has_stat_override = 0 ∧ l.has_privileged_stat_override = 0))
    (hval : entry.get (select_xattr_name l) = some v)
    (hlen : 63 < v.length)
    (h1 : env.statx_result = .ok st) :
    direct_fstat l env entry = .error ERANGE := by
  simp only [direct_fstat, h1, override_mode, if_neg hflag, if_true, fgetxattr, hval,
    if_pos hlen]

/-- Witness for C10: a 64-byte attribute value fails the stat call with
ERANGE. -/
theorem oversized_override_value_fails_witness :
    direct_fstat ⟨1, 0⟩ ⟨.ok c1_stat, .error 0⟩
      ⟨none, some "0000000000111111111122222222223333333333444444444455555555556666"⟩ =
      .error ERANGE :=
  oversized_override_value_fails ⟨1, 0⟩
    ⟨none, some "0000000000111111111122222222223333333333444444444455555555556666"⟩
    c1_stat "0000000000111111111122222222223333333333444444444455555555556666"
    ⟨.ok c1_stat, .error 0⟩ (by decide) rfl (by decide) rfl
